import Mathlib

/-!
Shallow embedding of the blog server (src/index.js; the file holds two
server variants, and unless noted the definitions follow the second,
fuller variant whose routes start at line 742). MongoDB collections are
modelled as association lists keyed by the `_id` string; an absent JSON
field is `none`; handler outcomes are small per-route response types
carrying the HTTP status the code sends.
-/

namespace BlogServer

/-- Resolved caller identity (`req.user`): decoded token claims, or the
dev-mode placeholder `{uid:"devUser", name:"Development User"}` which has
no email. -/
structure Identity where
  uid : String
  email : Option String
  name : Option String
deriving Repr, DecidableEq

/-- The `author` subdocument `{uid, email}` stored on a blog post. -/
structure Author where
  uid : String
  email : Option String
deriving Repr, DecidableEq

/-- A review object as pushed verbatim from the request body by
`POST /blogs/:id/reviews` (second variant, lines 921-936). -/
structure Review where
  _id : Option String
  userId : Option String
  userName : Option String
  comment : Option String
  rating : Option Int
  date : Option Nat
deriving Repr, DecidableEq

/-- A blog document's fields; `none` models a field absent from the stored
JSON document. -/
structure BlogDoc where
  title : Option String
  content : Option String
  category : Option String
  image : Option String
  author : Option Author
  createdAt : Option Nat
  likes : Option Int
  likedUsers : Option (List String)
  reviews : Option (List Review)
deriving Repr, DecidableEq

/-- A MongoDB collection: documents keyed by their `_id` string. -/
abbrev Coll (α : Type) := List (String × α)

/-- `collection.findOne({_id})`. -/
def findOne {α : Type} (c : Coll α) (id : String) : Option α :=
  (c.find? (fun b => b.1 == id)).map (fun b => b.2)

/-- `collection.updateOne({_id}, ...)`: rewrite the first matching document
with `f`; also return `matchedCount > 0` and `modifiedCount > 0`. -/
def updateOne {α : Type} [DecidableEq α] (c : Coll α) (id : String)
    (f : α → α) : Coll α × Bool × Bool :=
  match c with
  | [] => ([], false, false)
  | (i, d) :: rest =>
    if i == id then
      let d2 := f d
      ((i, d2) :: rest, true, if d2 = d then false else true)
    else
      let r := updateOne rest id f
      ((i, d) :: r.1, r.2.1, r.2.2)

/-- `collection.deleteOne({_id})`: drop the first matching document; also
return `deletedCount > 0`. -/
def deleteOne {α : Type} (c : Coll α) (id : String) : Coll α × Bool :=
  match c with
  | [] => ([], false)
  | (i, d) :: rest =>
    if i == id then (rest, true)
    else
      let r := deleteOne rest id
      ((i, d) :: r.1, r.2)

/-- `ObjectId.isValid` on a string: exactly 24 hexadecimal characters.
`new ObjectId(s)` throws on anything else, landing in a route's catch. -/
def isValidObjectId (s : String) : Bool :=
  s.length == 24 && s.toList.all (fun c =>
    c.isDigit || ('a' ≤ c && c ≤ 'f') || ('A' ≤ c && c ≤ 'F'))

/-- Response of `POST /blogs/:id/like`. -/
inductive LikeResp where
  | serverError
  | notFound
  | alreadyLiked
  | liked (likes : Int)
deriving Repr, DecidableEq

/-- HTTP status sent for each `LikeResp`. -/
def LikeResp.status : LikeResp → Nat
  | .serverError => 500
  | .notFound => 404
  | .alreadyLiked => 400
  | .liked _ => 200

/-- The `$inc: {likes: 1}, $push: {likedUsers: userId}` update document:
`$inc` creates an absent counter at 1 and `$push` creates an absent array
as a singleton. -/
def likeUpdate (userId : String) (b : BlogDoc) : BlogDoc :=
  { b with
    likes := some (b.likes.getD 0 + 1),
    likedUsers := some (b.likedUsers.getD [] ++ [userId]) }

/-- `POST /blogs/:id/like` (lines 897-918; the first variant has an
identical copy at 282-304): fetch the blog, 404 when absent, 400 when
`userId` is already in `likedUsers`, else `$inc likes` and `$push userId`
in one update and answer `(blog.likes || 0) + 1`. A malformed id makes
`new ObjectId(id)` throw into the catch-all 500. -/
def likeBlog (id userId : String) (blogs : Coll BlogDoc) :
    LikeResp × Coll BlogDoc :=
  if !isValidObjectId id then (.serverError, blogs)
  else
    match findOne blogs id with
    | none => (.notFound, blogs)
    | some blog =>
      let likedUsers := blog.likedUsers.getD []
      if likedUsers.contains userId then (.alreadyLiked, blogs)
      else
        let r := updateOne blogs id (likeUpdate userId)
        (.liked (blog.likes.getD 0 + 1), r.1)

/-- `$set` with the fields present in a request body: every field the body
supplies replaces the stored one, every absent field is kept. -/
def setFields (body old : BlogDoc) : BlogDoc :=
  { title := body.title <|> old.title,
    content := body.content <|> old.content,
    category := body.category <|> old.category,
    image := body.image <|> old.image,
    author := body.author <|> old.author,
    createdAt := body.createdAt <|> old.createdAt,
    likes := body.likes <|> old.likes,
    likedUsers := body.likedUsers <|> old.likedUsers,
    reviews := body.reviews <|> old.reviews }

/-- Response of `PATCH /blogs/:id` (second variant). -/
inductive PatchResp where
  | serverError
  | notFoundOrNoChange
  | updated
deriving Repr, DecidableEq

/-- HTTP status sent for each `PatchResp`. -/
def PatchResp.status : PatchResp → Nat
  | .serverError => 500
  | .notFoundOrNoChange => 404
  | .updated => 200

/-- `PATCH /blogs/:id` (second variant, lines 742-762): runs behind the
token gate but never consults `req.user`; `$set`s the whole body and
answers 404 "Blog not found or no changes made" when `modifiedCount` is 0.
There is no ownership check. -/
def patchBlog (id : String) (updateData : BlogDoc) (blogs : Coll BlogDoc) :
    PatchResp × Coll BlogDoc :=
  if !isValidObjectId id then (.serverError, blogs)
  else
    let r := updateOne blogs id (setFields updateData)
    if r.2.2 = false then (.notFoundOrNoChange, r.1)
    else (.updated, r.1)

/-- Response of `PUT /blogs/:id`. -/
inductive PutResp where
  | serverError
  | notFound
  | forbidden
  | updated
deriving Repr, DecidableEq

/-- HTTP status sent for each `PutResp`. -/
def PutResp.status : PutResp → Nat
  | .serverError => 500
  | .notFound => 404
  | .forbidden => 403
  | .updated => 200

/-- `PUT /blogs/:id` (lines 864-882): loads the blog, 404 when absent,
403 when `blog.author?.email !== req.user.email`, otherwise `$set`s the
whole body. -/
def putBlog (id : String) (user : Identity) (updateData : BlogDoc)
    (blogs : Coll BlogDoc) : PutResp × Coll BlogDoc :=
  if !isValidObjectId id then (.serverError, blogs)
  else
    match findOne blogs id with
    | none => (.notFound, blogs)
    | some blog =>
      if (blog.author.bind fun a => a.email) ≠ user.email then
        (.forbidden, blogs)
      else
        let r := updateOne blogs id (setFields updateData)
        (.updated, r.1)

/-- Response of `DELETE /blogs/:id` (second variant). -/
inductive DeleteResp where
  | invalidId
  | notFound
  | deleted
deriving Repr, DecidableEq

/-- HTTP status sent for each `DeleteResp`. -/
def DeleteResp.status : DeleteResp → Nat
  | .invalidId => 400
  | .notFound => 404
  | .deleted => 200

/-- `DELETE /blogs/:id` (second variant, lines 828-848): runs behind the
token gate but never consults `req.user`; validates the id (400), then
`deleteOne` — 404 when nothing matched. There is no ownership check. -/
def deleteBlog (id : String) (blogs : Coll BlogDoc) :
    DeleteResp × Coll BlogDoc :=
  if !isValidObjectId id then (.invalidId, blogs)
  else
    let r := deleteOne blogs id
    if r.2 then (.deleted, r.1) else (.notFound, r.1)

/-- `x || d` on a possibly-absent JS string: `""` is falsy. -/
def jsOr (x : Option String) (d : String) : String :=
  match x with
  | none => d
  | some s => if s = "" then d else s

/-- A string template slot: JS renders an absent value as "undefined". -/
def jsTemplate (x : Option String) : String :=
  x.getD "undefined"

/-- An audit record as written by `logActivity` (lines 495-509). -/
structure Activity where
  user_uid : String
  user_email : String
  type : String
  message : String
  blogId : Option String
  timestamp : Nat
deriving Repr, DecidableEq

/-- `logActivity` (lines 495-509): appends one record to the activities
collection, snapshotting `{uid: user?.uid || "guest",
email: user?.email || "unknown"}`. -/
def logActivity (user : Option Identity) (type message : String)
    (blogId : Option String) (now : Nat) (activities : List Activity) :
    List Activity :=
  activities ++
    [{ user_uid := jsOr (user.map fun u => u.uid) "guest",
       user_email := jsOr (user.bind fun u => u.email) "unknown",
       type := type, message := message, blogId := blogId,
       timestamp := now }]

/-- Response of `POST /blogs` (authenticated variant): 201 with the new
document's id. -/
structure CreateResp where
  status : Nat
  blogId : String
deriving Repr, DecidableEq

/-- `POST /blogs` (second variant, lines 764-793 — the earlier of its two
registrations of this method+path, hence the one Express dispatches to):
inserts `{...blogData, author: {uid, email}, createdAt: now}` — the spread
puts the body first, so the caller identity overwrites any body `author`
and `createdAt`, while every other body field, `likes`, `likedUsers` and
`reviews` included, is stored verbatim or left absent. Then logs a
"CREATE" activity and answers 201 with the inserted id. -/
def createBlog (blogData : BlogDoc) (user : Identity) (newId : String)
    (now : Nat) (blogs : Coll BlogDoc) (activities : List Activity) :
    CreateResp × Coll BlogDoc × List Activity :=
  let newDoc : BlogDoc :=
    { blogData with
      author := some { uid := user.uid, email := user.email },
      createdAt := some now }
  let blogs2 := blogs ++ [(newId, newDoc)]
  let activities2 := logActivity (some user) "CREATE"
    (jsTemplate user.email ++ " created a new blog") (some newId) now
    activities
  ({ status := 201, blogId := newId }, blogs2, activities2)

/-- Response of `POST /blogs/:id/reviews` (second variant). -/
inductive AddReviewResp where
  | invalidId
  | success
deriving Repr, DecidableEq

/-- HTTP status sent for each `AddReviewResp`. -/
def AddReviewResp.status : AddReviewResp → Nat
  | .invalidId => 400
  | .success => 200

/-- The `$push: {reviews: review}` update document: `$push` creates an
absent array as a singleton. -/
def pushReview (review : Review) (b : BlogDoc) : BlogDoc :=
  { b with reviews := some (b.reviews.getD [] ++ [review]) }

/-- `POST /blogs/:id/reviews` (second variant, lines 921-936): validates
the id (400), then `$push`es the body onto `reviews` and answers success —
without inspecting `matchedCount`, so an absent post id still yields
"Review added successfully". No fresh identity is assigned to the
review. -/
def addReview (blogId : String) (review : Review) (blogs : Coll BlogDoc) :
    AddReviewResp × Coll BlogDoc :=
  if !isValidObjectId blogId then (.invalidId, blogs)
  else
    let r := updateOne blogs blogId (pushReview review)
    (.success, r.1)

/-- Response of `DELETE /:blogId/:commentId`. -/
inductive RemoveReviewResp where
  | serverError
  | blogNotFound
  | reviewNotFound
  | deleted
deriving Repr, DecidableEq

/-- HTTP status sent for each `RemoveReviewResp`. -/
def RemoveReviewResp.status : RemoveReviewResp → Nat
  | .serverError => 500
  | .blogNotFound => 404
  | .reviewNotFound => 404
  | .deleted => 200

/-- The `$set: {reviews: updatedReviews}` update document. -/
def setReviews (rs : List Review) (b : BlogDoc) : BlogDoc :=
  { b with reviews := some rs }

/-- `DELETE /:blogId/:commentId` (lines 962-992): loads the blog (404
"Blog not found" when absent), filters `reviews` by
`r._id.toString() !== commentId` — which throws into the catch-all 500 as
soon as any review lacks `_id` — answers 404 "Review not found" when the
filter removed nothing, and otherwise `$set`s the filtered list. -/
def removeReview (blogId commentId : String) (blogs : Coll BlogDoc) :
    RemoveReviewResp × Coll BlogDoc :=
  if !isValidObjectId blogId then (.serverError, blogs)
  else
    match findOne blogs blogId with
    | none => (.blogNotFound, blogs)
    | some blog =>
      let reviews := blog.reviews.getD []
      if reviews.any (fun r => r._id.isNone) then (.serverError, blogs)
      else
        let updatedReviews := reviews.filter (fun r => r._id != some commentId)
        if updatedReviews.length = reviews.length then
          (.reviewNotFound, blogs)
        else
          let r := updateOne blogs blogId (setReviews updatedReviews)
          (.deleted, r.1)

/-- Outcome of the token middleware: a resolved `req.user` or a 401. -/
inductive AuthResult where
  | ok (user : Identity)
  | unauthorized (message : String)
deriving Repr, DecidableEq

/-- The dev-mode placeholder `req.user`. -/
def devUserIdentity : Identity :=
  { uid := "devUser", email := none, name := some "Development User" }

/-- JavaScript `s.split(sep)` for a single-character separator: splits at
every occurrence, keeping empty pieces (so `"".split(" ") = [""]`). -/
def jsSplit (sep : Char) (s : String) : List String :=
  (s.toList.foldr
    (fun c acc =>
      match acc with
      | [] => if c = sep then [[], []] else [[c]]
      | a :: rest => if c = sep then [] :: a :: rest else (c :: a) :: rest)
    [[]]).map (fun l => String.mk l)

/-- `verifyFirebaseToken` (second variant, lines 511-535). A falsy
`authorization` header (absent or empty) yields the placeholder identity
unless `NODE_ENV === "production"`, where it is a 401. Otherwise the part
after the first space is handed to the external verifier
(`admin.auth().verifyIdToken`, modelled as an oracle returning the decoded
claims or nothing); a missing token part or a failed verification throws
into the 401 catch. -/
def verifyFirebaseToken (authHeader : Option String) (isProduction : Bool)
    (verifyIdToken : String → Option Identity) : AuthResult :=
  match authHeader with
  | none =>
    if !isProduction then .ok devUserIdentity
    else .unauthorized "No token provided"
  | some h =>
    if h = "" then
      if !isProduction then .ok devUserIdentity
      else .unauthorized "No token provided"
    else
      match (jsSplit ' ' h)[1]? with
      | none => .unauthorized "Invalid or expired token"
      | some t =>
        match verifyIdToken t with
        | some decoded => .ok decoded
        | none => .unauthorized "Invalid or expired token"

/-- A stored user record, as far as the admin gates consult it. -/
structure UserDoc where
  email : Option String
  role : Option String
deriving Repr, DecidableEq

/-- A mailing-list subscriber. -/
structure Subscriber where
  email : String
  createdAt : Nat
deriving Repr, DecidableEq

/-- A contact message. -/
structure Contact where
  name : String
  email : String
  message : String
  createdAt : Nat
deriving Repr, DecidableEq

/-- Response of `GET /subscribers`. -/
inductive SubscribersResp where
  | forbidden
  | ok (subscribers : Coll Subscriber)
deriving Repr, DecidableEq

/-- HTTP status sent for each `SubscribersResp`. -/
def SubscribersResp.status : SubscribersResp → Nat
  | .forbidden => 403
  | .ok _ => 200

/-- `GET /subscribers` (lines 1171-1185): behind the token gate; looks the
caller up by email and answers 403 "Admins only" unless the stored role is
"admin", else the full list. -/
def getSubscribers (user : Identity) (users : List UserDoc)
    (subscribers : Coll Subscriber) : SubscribersResp :=
  match users.find? (fun u => u.email == user.email) with
  | none => .forbidden
  | some u =>
    if u.role != some "admin" then .forbidden
    else .ok subscribers

/-- The route a two-segment `DELETE /seg1/seg2` request reaches in the
second variant. Express dispatches in registration order:
`app.delete("/blogs/:id")` is registered at line 828 and
`app.delete("/:blogId/:commentId")` at line 962, whose two parameters
match ANY two-segment path — so the later
`app.delete("/contacts/:id")` (line 1101) and
`app.delete("/subscribers/:id")` (line 1189) are never reached. -/
inductive DeleteRoute where
  | blogsRoute (id : String)
  | reviewsRoute (blogId commentId : String)
deriving Repr, DecidableEq

/-- Dispatch of a two-segment `DELETE /seg1/seg2` request: the line-828
blogs route when the first segment is the literal "blogs", otherwise the
line-962 review-removal route, with `seg1` bound to `blogId`. -/
def matchDeleteRoute (seg1 seg2 : String) : DeleteRoute :=
  if seg1 = "blogs" then .blogsRoute seg2
  else .reviewsRoute seg1 seg2

/-- Response of `GET /contacts`. -/
inductive ContactsResp where
  | emailMissing
  | forbidden
  | ok (contacts : Coll Contact)
deriving Repr, DecidableEq

/-- HTTP status sent for each `ContactsResp`. -/
def ContactsResp.status : ContactsResp → Nat
  | .emailMissing => 400
  | .forbidden => 403
  | .ok _ => 200

/-- `GET /contacts` (lines 1080-1098): behind the token gate; 400 when the
token carries no (or an empty) email, then the same admin lookup (403
"Admins only" unless role is "admin"), else the full list. -/
def getContacts (user : Identity) (users : List UserDoc)
    (contacts : Coll Contact) : ContactsResp :=
  match user.email with
  | none => .emailMissing
  | some e =>
    if e = "" then .emailMissing
    else
      match users.find? (fun u => u.email == some e) with
      | none => .forbidden
      | some u =>
        if u.role != some "admin" then .forbidden
        else .ok contacts

/-- HTTP status sent for each `AuthResult`: a resolved identity lets the
route proceed, a rejection is a 401. -/
def AuthResult.status : AuthResult → Nat
  | .ok _ => 200
  | .unauthorized _ => 401

/-- The spec's BlogPost invariant `likes == |likedUsers|`, read through the
code's defaults for absent fields (`likes || 0`, `likedUsers || []`). -/
def likesInvariant (b : BlogDoc) : Prop :=
  b.likes.getD 0 = ((b.likedUsers.getD []).length : Int)

instance (b : BlogDoc) : Decidable (likesInvariant b) := by
  unfold likesInvariant; infer_instance

/-! Helper lemmas about the modelled collection operations. -/

theorem findOne_cons {α : Type} (i : String) (d : α) (tl : Coll α)
    (id : String) :
    findOne ((i, d) :: tl) id = if i == id then some d else findOne tl id := by
  by_cases h : (i == id) = true
  · simp only [findOne]
    rw [List.find?_cons_of_pos _ (by simpa using h)]
    simp [h]
  · simp only [findOne]
    rw [List.find?_cons_of_neg _ (by simpa using h)]
    simp [h, findOne]

theorem updateOne_not_found {α : Type} [DecidableEq α] (c : Coll α)
    (id : String) (f : α → α) (h : findOne c id = none) :
    updateOne c id f = (c, false, false) := by
  induction c with
  | nil => rfl
  | cons hd tl ih =>
    obtain ⟨i, d⟩ := hd
    rw [findOne_cons] at h
    by_cases hi : (i == id) = true
    · simp [hi] at h
    · simp only [hi, ite_false, Bool.false_eq_true, if_false] at h
      simp [updateOne, hi, ih h]

theorem updateOne_found {α : Type} [DecidableEq α] (c : Coll α)
    (id : String) (f : α → α) (b : α) (h : findOne c id = some b) :
    (updateOne c id f).2.1 = true
    ∧ (updateOne c id f).2.2 = (if f b = b then false else true)
    ∧ findOne (updateOne c id f).1 id = some (f b) := by
  induction c with
  | nil => simp [findOne] at h
  | cons hd tl ih =>
    obtain ⟨i, d⟩ := hd
    rw [findOne_cons] at h
    by_cases hi : (i == id) = true
    · simp only [hi, ite_true, if_true, Option.some.injEq] at h
      subst h
      simp [updateOne, hi, findOne_cons]
    · simp only [hi, ite_false, Bool.false_eq_true, if_false] at h
      have ih2 := ih h
      simp only [updateOne, hi, Bool.false_eq_true, if_false, findOne_cons]
      exact ⟨ih2.1, ih2.2.1, by simp [hi, ih2.2.2]⟩

theorem deleteOne_found {α : Type} (c : Coll α) (id : String) (b : α)
    (h : findOne c id = some b) : (deleteOne c id).2 = true := by
  induction c with
  | nil => simp [findOne] at h
  | cons hd tl ih =>
    obtain ⟨i, d⟩ := hd
    rw [findOne_cons] at h
    by_cases hi : (i == id) = true
    · simp [deleteOne, hi]
    · simp only [hi, ite_false, Bool.false_eq_true, if_false] at h
      simp [deleteOne, hi, ih h]

theorem updateOne_pred {α : Type} [DecidableEq α] (c : Coll α) (id : String)
    (f : α → α) (P : α → Prop) (hc : ∀ p ∈ c, P p.2)
    (hf : ∀ a, P a → P (f a)) :
    ∀ p ∈ (updateOne c id f).1, P p.2 := by
  induction c with
  | nil =>
    intro p hp
    simp [updateOne] at hp
  | cons hd tl ih =>
    obtain ⟨i, d⟩ := hd
    have hd' : P d := hc (i, d) (by simp)
    have htl : ∀ p ∈ tl, P p.2 := fun p hp => hc p (by simp [hp])
    intro p hp
    by_cases hi : (i == id) = true
    · simp only [updateOne, hi, if_true, List.mem_cons] at hp
      rcases hp with rfl | hp
      · exact hf d hd'
      · exact htl p hp
    · simp only [updateOne, hi, Bool.false_eq_true, if_false,
        List.mem_cons] at hp
      rcases hp with rfl | hp
      · exact hd'
      · exact ih htl p hp

/-- A filter that drops some member of the list shortens it. -/
theorem length_filter_ne {α : Type} (l : List α) (p : α → Bool) (a : α)
    (ha : a ∈ l) (hpa : p a = false) :
    (l.filter p).length ≠ l.length := by
  intro h
  have heq : l.filter p = l := (List.filter_sublist l).eq_of_length h
  have := List.filter_eq_self.mp heq a ha
  rw [hpa] at this
  exact Bool.false_ne_true this

/-! Concrete sample values used by witnesses and counterexamples. -/

/-- A blog document with every field absent. -/
def emptyDoc : BlogDoc :=
  { title := none, content := none, category := none, image := none,
    author := none, createdAt := none, likes := none, likedUsers := none,
    reviews := none }

/-- A well-formed ObjectId string. -/
def oid1 : String := "0123456789abcdef01234567"

/-- A second, distinct well-formed ObjectId string. -/
def oid2 : String := "aaaabbbbccccddddeeeeffff"

/-- A review that carries an identity. -/
def sampleReview : Review :=
  { _id := some "r1", userId := some "u1", userName := some "Bob",
    comment := some "nice", rating := some 5, date := some 0 }

/-! Claim theorems. -/

/-- C1: `POST /blogs/:id/like` on a well-formed id: 404 with the store
unchanged when the post is absent; 400 `Already liked` with the store
unchanged when `userId` is already a member of the post's `likedUsers`;
otherwise the stored post's `likes` grows by exactly 1, `userId` is
appended to `likedUsers`, and the response carries the new like count. -/
theorem like_spec (blogs : Coll BlogDoc) (id userId : String)
    (hid : isValidObjectId id = true) :
    (findOne blogs id = none → likeBlog id userId blogs = (.notFound, blogs))
    ∧ (∀ blog, findOne blogs id = some blog →
        userId ∈ blog.likedUsers.getD [] →
        likeBlog id userId blogs = (.alreadyLiked, blogs)
        ∧ LikeResp.alreadyLiked.status = 400)
    ∧ (∀ blog, findOne blogs id = some blog →
        userId ∉ blog.likedUsers.getD [] →
        (likeBlog id userId blogs).1 = .liked (blog.likes.getD 0 + 1)
        ∧ findOne (likeBlog id userId blogs).2 id =
            some { blog with
              likes := some (blog.likes.getD 0 + 1),
              likedUsers := some (blog.likedUsers.getD [] ++ [userId]) }) := by
  refine ⟨?_, ?_, ?_⟩
  · intro h
    simp [likeBlog, hid, h]
  · intro blog hfind hmem
    exact ⟨by simp [likeBlog, hid, hfind, hmem], rfl⟩
  · intro blog hfind hmem
    have hupd := updateOne_found blogs id (likeUpdate userId) blog hfind
    exact ⟨by simp [likeBlog, hid, hfind, hmem],
      by simp [likeBlog, hid, hfind, hmem, hupd.2.2, likeUpdate]⟩

/-- C1 witness: a first like on a concrete post with no likes answers 1. -/
theorem like_spec_witness :
    (likeBlog oid1 "u1" [(oid1, emptyDoc)]).1 = .liked 1 := by
  have h := (like_spec [(oid1, emptyDoc)] oid1 "u1" (by decide)).2.2
    emptyDoc (by decide) (by decide)
  simpa [emptyDoc] using h.1

/-- C9: the token gate (second variant): with no credential header it
resolves to the fixed placeholder identity `uid="devUser"` when the
deployment is not production and rejects 401 in production; a header whose
bearer token the external verifier rejects is a 401. -/
theorem identity_gate_spec (isProduction : Bool)
    (verifyIdToken : String → Option Identity) :
    (isProduction = false →
      verifyFirebaseToken none isProduction verifyIdToken
        = .ok devUserIdentity)
    ∧ (isProduction = true →
      verifyFirebaseToken none isProduction verifyIdToken
        = .unauthorized "No token provided")
    ∧ (∀ h t, h ≠ "" → (jsSplit ' ' h)[1]? = some t →
        verifyIdToken t = none →
        verifyFirebaseToken (some h) isProduction verifyIdToken
          = .unauthorized "Invalid or expired token")
    ∧ devUserIdentity.uid = "devUser"
    ∧ (AuthResult.unauthorized "No token provided").status = 401 := by
  refine ⟨?_, ?_, ?_, rfl, rfl⟩
  · intro h; subst h; rfl
  · intro h; subst h; rfl
  · intro h t hne hsplit hbad
    simp [verifyFirebaseToken, hne, hsplit, hbad]

/-- C9 witness: the gate at concrete inputs — dev fallback without a
header, and a 401 for a rejected bearer token in production. -/
theorem identity_gate_witness :
    verifyFirebaseToken none false (fun _ => none) = .ok devUserIdentity
    ∧ verifyFirebaseToken (some "Bearer bad") true (fun _ => none)
      = .unauthorized "Invalid or expired token" := by
  refine ⟨(identity_gate_spec false (fun _ => none)).1 rfl, ?_⟩
  exact (identity_gate_spec true (fun _ => none)).2.2.1 "Bearer bad" "bad"
    (by decide) (by decide) rfl

/-- C10: `POST /blogs/:id/reviews` (second variant) with a well-formed but
absent post id answers success (200) and leaves every stored post exactly
as it was: the handler never inspects whether its update matched. -/
theorem add_review_absent_spec (blogs : Coll BlogDoc) (id : String)
    (rev : Review) (hid : isValidObjectId id = true)
    (habs : findOne blogs id = none) :
    addReview id rev blogs = (.success, blogs)
    ∧ AddReviewResp.success.status = 200 := by
  have h := updateOne_not_found blogs id (pushReview rev) habs
  exact ⟨by simp [addReview, hid, h], rfl⟩

/-- C10 witness: adding a review under an absent (but well-formed) id on a
concrete one-post store succeeds and changes nothing. -/
theorem add_review_absent_witness :
    addReview oid2 sampleReview [(oid1, emptyDoc)]
      = (.success, [(oid1, emptyDoc)]) :=
  (add_review_absent_spec [(oid1, emptyDoc)] oid2 sampleReview (by decide)
    (by decide)).1

/-- The `likeUpdate` document preserves `likes == |likedUsers|`. -/
theorem likeUpdate_invariant (userId : String) (b : BlogDoc)
    (h : likesInvariant b) : likesInvariant (likeUpdate userId b) := by
  simp [likeUpdate, likesInvariant] at h ⊢
  omega

/-- C2 counterexample: a PATCH whose body sets only `likes` breaks
`likes == |likedUsers|` — the handler `$set`s arbitrary body fields, so
the claimed preservation by every post-touching operation is false. -/
theorem likes_invariant_cex :
    likesInvariant emptyDoc
    ∧ findOne (patchBlog oid1 { emptyDoc with likes := some 5 }
        [(oid1, emptyDoc)]).2 oid1 = some { emptyDoc with likes := some 5 }
    ∧ ¬ likesInvariant { emptyDoc with likes := some 5 } := by decide

/-- C2 amended: the Like handler preserves `likes == |likedUsers|` on
every stored post, and Create with a body that supplies neither `likes`
nor `likedUsers` stores a post satisfying it; the PATCH/PUT handlers
`$set` whatever the body carries and so do not preserve the invariant in
general. -/
theorem likes_invariant_amended (blogs : Coll BlogDoc) (id userId : String)
    (hinv : ∀ p ∈ blogs, likesInvariant p.2) :
    (∀ p ∈ (likeBlog id userId blogs).2, likesInvariant p.2)
    ∧ (∀ (body : BlogDoc) (user : Identity) (newId : String) (now : Nat)
        (acts : List Activity), body.likes = none → body.likedUsers = none →
        ∀ p ∈ (createBlog body user newId now blogs acts).2.1,
          likesInvariant p.2) := by
  constructor
  · intro p hp
    by_cases hid : isValidObjectId id = true
    · cases hfind : findOne blogs id with
      | none =>
        simp [likeBlog, hid, hfind] at hp
        exact hinv p hp
      | some blog =>
        by_cases hmem : userId ∈ blog.likedUsers.getD []
        · simp [likeBlog, hid, hfind, hmem] at hp
          exact hinv p hp
        · simp [likeBlog, hid, hfind, hmem] at hp
          exact updateOne_pred blogs id (likeUpdate userId) likesInvariant
            hinv (likeUpdate_invariant userId) p hp
    · simp [likeBlog, hid] at hp
      exact hinv p hp
  · intro body user newId now acts h1 h2 p hp
    simp [createBlog] at hp
    rcases hp with hp | hp
    · exact hinv p hp
    · subst hp
      simp [likesInvariant, h1, h2]

/-- A post as it stands after a first like from "u1". -/
def likedDoc1 : BlogDoc :=
  { emptyDoc with likes := some 1, likedUsers := some ["u1"] }

/-- C2 witness: the invariant holds on the concrete post produced by a
first like on an initially untouched post. -/
theorem likes_invariant_amended_witness : likesInvariant likedDoc1 :=
  (likes_invariant_amended [(oid1, emptyDoc)] oid1 "u1" (by decide)).1
    (oid1, likedDoc1) (by decide)

/-- The author and a post they own, used by C3/C7. -/
def authorE1 : Author := { uid := "u1", email := some "e1" }

/-- A post whose `author.email` is "e1". -/
def postByE1 : BlogDoc := { emptyDoc with author := some authorE1 }

/-- A caller identity whose email "e2" differs from "e1". -/
def userE2 : Identity := { uid := "u2", email := some "e2", name := none }

/-- C3 counterexample: `DELETE /blogs/:id` (second variant) consults no
identity at all — every caller, one with email "e2" ≠ "e1" included,
reaches the same `deleteOne` — so a post authored by "e1" is removed with
a 200, not kept behind a 403. -/
theorem ownership_cex :
    postByE1.author = some authorE1
    ∧ deleteBlog oid1 [(oid1, postByE1)] = (.deleted, [])
    ∧ DeleteResp.deleted.status = 200 ∧ (200 : Nat) ≠ 403 := by decide

/-- C3 amended: only `PUT /blogs/:id` enforces ownership — a caller whose
email differs from `author.email` gets 403 and the store is untouched;
`PATCH /blogs/:id` applies the `$set` merge and `DELETE /blogs/:id`
removes the post without any ownership check (neither handler reads
`req.user`). -/
theorem ownership_amended (blogs : Coll BlogDoc) (id : String)
    (user : Identity) (body : BlogDoc) (blog : BlogDoc)
    (hid : isValidObjectId id = true)
    (hfind : findOne blogs id = some blog)
    (hne : (blog.author.bind fun a => a.email) ≠ user.email) :
    putBlog id user body blogs = (.forbidden, blogs)
    ∧ PutResp.forbidden.status = 403
    ∧ (deleteBlog id blogs).1 = .deleted
    ∧ findOne (patchBlog id body blogs).2 id = some (setFields body blog) := by
  have hupd := updateOne_found blogs id (setFields body) blog hfind
  refine ⟨by simp [putBlog, hid, hfind, hne], rfl,
    by simp [deleteBlog, hid, deleteOne_found blogs id blog hfind], ?_⟩
  by_cases hmod : (updateOne blogs id (setFields body)).2.2 = false
  · simp [patchBlog, hid, hmod, hupd.2.2]
  · simp [patchBlog, hid, hmod, hupd.2.2]

/-- C3 witness: the concrete non-author PUT is rejected 403 and leaves the
one-post store as it was. -/
theorem ownership_amended_witness :
    putBlog oid1 userE2 emptyDoc [(oid1, postByE1)]
      = (.forbidden, [(oid1, postByE1)]) :=
  (ownership_amended [(oid1, postByE1)] oid1 userE2 emptyDoc postByE1
    (by decide) (by decide) (by decide)).1

/-- The post C4's counterexample stores: body `likes` kept verbatim. -/
def createdCexDoc : BlogDoc :=
  { emptyDoc with
    likes := some 7,
    author := some { uid := "u2", email := some "e2" },
    createdAt := some 5 }

/-- C4 counterexample: Create stores a caller-supplied `likes` verbatim —
with body `{likes: 7}` the stored post's `likes` is 7, not the claimed 0
(and `likedUsers`/`reviews` are likewise never initialised). -/
theorem create_fields_cex :
    (createBlog { emptyDoc with likes := some 7 } userE2 oid2 5 [] []).2.1
      = [(oid2, createdCexDoc)]
    ∧ (7 : Int) ≠ 0 := by decide

/-- C4 amended: Create fixes `author` to the caller's `{uid, email}`
(overwriting any body `author`), sets `createdAt = now`, answers 201 with
the new post's id, and appends exactly one "CREATE" audit record; but
`likes`, `likedUsers` and `reviews` are not initialised — the stored post
keeps whatever the body supplied for them (absent when omitted, which
readers default to 0/empty). -/
theorem create_fields_amended (body : BlogDoc) (user : Identity)
    (newId : String) (now : Nat) (blogs : Coll BlogDoc)
    (acts : List Activity) :
    createBlog body user newId now blogs acts
      = ({ status := 201, blogId := newId },
         blogs ++ [(newId,
           { body with
             author := some { uid := user.uid, email := user.email },
             createdAt := some now })],
         acts ++ [{ user_uid := jsOr (some user.uid) "guest",
                    user_email := jsOr user.email "unknown",
                    type := "CREATE",
                    message := jsTemplate user.email ++ " created a new blog",
                    blogId := some newId, timestamp := now }]) := rfl

/-- A review posted without an identity. -/
def reviewNoId : Review := { sampleReview with _id := none }

/-- C5 counterexample: the code never assigns a review a fresh identity —
a review posted without `_id` is stored as-is, and any subsequent
RemoveReview on that post throws on `r._id.toString()` (500), leaving the
review list at length 1 instead of restoring the prior empty list. -/
theorem review_roundtrip_cex :
    (addReview oid1 reviewNoId [(oid1, emptyDoc)]).2
      = [(oid1, { emptyDoc with reviews := some [reviewNoId] })]
    ∧ removeReview oid1 "r1" (addReview oid1 reviewNoId [(oid1, emptyDoc)]).2
      = (.serverError,
         [(oid1, { emptyDoc with reviews := some [reviewNoId] })])
    ∧ reviewNoId._id = none := by decide

/-- C5 amended: AddReview stores the body verbatim and assigns no
identity; when the caller themselves supplies the review an identity that
differs from every existing review's identity, and every existing review
carries one, AddReview followed by RemoveReview with that identity
restores the post's review list to exactly its prior content (and the
removal answers 200). -/
theorem review_roundtrip_amended (blogs : Coll BlogDoc) (id cid : String)
    (blog : BlogDoc) (rev : Review)
    (hid : isValidObjectId id = true)
    (hfind : findOne blogs id = some blog)
    (hrid : rev._id = some cid)
    (hall : ∀ r ∈ blog.reviews.getD [], r._id ≠ none)
    (hfresh : ∀ r ∈ blog.reviews.getD [], r._id ≠ some cid) :
    (findOne (removeReview id cid (addReview id rev blogs).2).2 id).map
        (fun b => b.reviews.getD [])
      = some (blog.reviews.getD [])
    ∧ (removeReview id cid (addReview id rev blogs).2).1 = .deleted := by
  have hdb1 : (addReview id rev blogs).2
      = (updateOne blogs id (pushReview rev)).1 := by
    simp [addReview, hid]
  have hupd1 := updateOne_found blogs id (pushReview rev) blog hfind
  have hfind1 : findOne (addReview id rev blogs).2 id
      = some (pushReview rev blog) := by
    rw [hdb1]; exact hupd1.2.2
  have hany : (blog.reviews.getD [] ++ [rev]).any
      (fun r => r._id.isNone) = false := by
    simp only [List.any_eq_false]
    intro r hr
    rcases List.mem_append.mp hr with h | h
    · simpa [Option.isNone_iff_eq_none] using hall r h
    · simp only [List.mem_singleton] at h
      subst h
      simp [hrid]
  have hfl : (blog.reviews.getD []).filter (fun r => r._id != some cid)
      = blog.reviews.getD [] :=
    List.filter_eq_self.mpr (fun r hr => by
      simpa [bne_iff_ne] using hfresh r hr)
  have hfilter : (blog.reviews.getD [] ++ [rev]).filter
      (fun r => r._id != some cid) = blog.reviews.getD [] := by
    simp [List.filter_append, hfl, hrid]
  have hlen : (blog.reviews.getD []).length
      ≠ (blog.reviews.getD [] ++ [rev]).length := by
    simp
  have hupd2 := updateOne_found (addReview id rev blogs).2 id
    (setReviews (blog.reviews.getD [])) (pushReview rev blog) hfind1
  constructor
  · simp [removeReview, hid, hfind1, pushReview, hany, hfilter, hlen,
      hupd2.2.2, setReviews]
  · simp [removeReview, hid, hfind1, pushReview, hany, hfilter, hlen]

/-- A post with one identity-carrying review. -/
def postOneReview : BlogDoc := { emptyDoc with reviews := some [] }

/-- C5 witness: adding a review carrying identity "r1" to a concrete post
with no reviews and then removing "r1" ends with the empty review list and
a 200. -/
theorem review_roundtrip_witness :
    (removeReview oid1 "r1"
        (addReview oid1 sampleReview [(oid1, postOneReview)]).2).1
      = .deleted :=
  (review_roundtrip_amended [(oid1, postOneReview)] oid1 "r1" postOneReview
    sampleReview (by decide) (by decide) rfl (by decide) (by decide)).2

/-- Two distinct reviews sharing the identity "a". -/
def revA1 : Review := { sampleReview with _id := some "a", userId := some "x" }

/-- A second review also carrying identity "a". -/
def revA2 : Review := { sampleReview with _id := some "a", userId := some "y" }

/-- A post carrying both duplicate-identity reviews. -/
def postTwoA : BlogDoc := { emptyDoc with reviews := some [revA1, revA2] }

/-- C6 counterexample: with two reviews sharing identity "a", RemoveReview
filters out BOTH — the list drops from length 2 to 0, not "exactly the one
matching review". -/
theorem remove_review_cex :
    removeReview oid1 "a" [(oid1, postTwoA)]
      = (.deleted, [(oid1, { emptyDoc with reviews := some [] })])
    ∧ (postTwoA.reviews.getD []).length = 2 := by decide

/-- C6 amended: RemoveReview answers 404 "Blog not found" when the post is
absent; when the post exists and every review carries an identity it
answers the distinct 404 "Review not found" if none matches, and otherwise
removes ALL reviews whose identity matches `commentId` (hence exactly one
when identities are unique) while preserving the relative order of the
remaining reviews; a stored review without an identity instead makes the
handler 500. -/
theorem remove_review_amended (blogs : Coll BlogDoc) (bid cid : String)
    (hid : isValidObjectId bid = true) :
    (findOne blogs bid = none →
      removeReview bid cid blogs = (.blogNotFound, blogs))
    ∧ (∀ blog, findOne blogs bid = some blog →
        (∀ r ∈ blog.reviews.getD [], r._id ≠ none) →
        ((∀ r ∈ blog.reviews.getD [], r._id ≠ some cid) →
          removeReview bid cid blogs = (.reviewNotFound, blogs))
        ∧ ((∃ rm ∈ blog.reviews.getD [], rm._id = some cid) →
          (removeReview bid cid blogs).1 = .deleted
          ∧ findOne (removeReview bid cid blogs).2 bid =
              some (setReviews
                ((blog.reviews.getD []).filter (fun r => r._id != some cid))
                blog))) := by
  refine ⟨fun h => by simp [removeReview, hid, h], ?_⟩
  intro blog hfind hnone
  have hany : (blog.reviews.getD []).any (fun r => r._id.isNone) = false := by
    simp only [List.any_eq_false]
    intro r hr
    simpa [Option.isNone_iff_eq_none] using hnone r hr
  constructor
  · intro hmiss
    have hfl : (blog.reviews.getD []).filter (fun r => r._id != some cid)
        = blog.reviews.getD [] :=
      List.filter_eq_self.mpr (fun r hr => by
        simpa [bne_iff_ne] using hmiss r hr)
    simp [removeReview, hid, hfind, hany, hfl]
  · rintro ⟨rm, hrm, hrmid⟩
    have hlen : ((blog.reviews.getD []).filter
        (fun r => r._id != some cid)).length
        ≠ (blog.reviews.getD []).length :=
      length_filter_ne _ _ rm hrm (by simp [hrmid])
    have hupd := updateOne_found blogs bid
      (setReviews ((blog.reviews.getD []).filter
        (fun r => r._id != some cid))) blog hfind
    exact ⟨by simp [removeReview, hid, hfind, hany, hlen],
      by simp [removeReview, hid, hfind, hany, hlen, hupd.2.2]⟩

/-- C6 witness: removing identity "a" from the concrete two-review post
(both carrying "a") goes through the theorem's matching branch. -/
theorem remove_review_amended_witness :
    (removeReview oid1 "a" [(oid1, postTwoA)]).1 = .deleted :=
  (((remove_review_amended [(oid1, postTwoA)] oid1 "a" (by decide)).2
    postTwoA (by decide) (by decide)).2 ⟨revA1, by decide, rfl⟩).1

/-- The identity that owns `postByE1`. -/
def ownerE1 : Identity := { uid := "u1", email := some "e1", name := none }

/-- A different author, supplied by C7's counterexample body. -/
def authorE2 : Author := { uid := "u2", email := some "e2" }

/-- A PUT body that carries an `author` field. -/
def bodyNewAuthor : BlogDoc := { emptyDoc with author := some authorE2 }

/-- C7 counterexample: an owner PUT whose body carries an `author` field
replaces the stored author — `$set {...body}` merges every supplied field,
the five "never replaced" ones included. -/
theorem shallow_merge_cex :
    putBlog oid1 ownerE1 bodyNewAuthor [(oid1, postByE1)]
      = (.updated, [(oid1, { postByE1 with author := some authorE2 })])
    ∧ some authorE2 ≠ some authorE1 := by decide

/-- C7 amended: PATCH/PUT apply a shallow `$set` of exactly the supplied
body fields, so any field the body omits is unchanged — in particular
`author`, `createdAt`, `likes`, `likedUsers` and `reviews` survive
whenever the body does not carry them; a body that does carry one of them
replaces it. -/
theorem shallow_merge_amended (blogs : Coll BlogDoc) (id : String)
    (user : Identity) (body blog : BlogDoc)
    (hid : isValidObjectId id = true)
    (hfind : findOne blogs id = some blog)
    (hown : (blog.author.bind fun a => a.email) = user.email)
    (h1 : body.author = none) (h2 : body.createdAt = none)
    (h3 : body.likes = none) (h4 : body.likedUsers = none)
    (h5 : body.reviews = none) :
    findOne (putBlog id user body blogs).2 id = some (setFields body blog)
    ∧ findOne (patchBlog id body blogs).2 id = some (setFields body blog)
    ∧ (setFields body blog).author = blog.author
    ∧ (setFields body blog).createdAt = blog.createdAt
    ∧ (setFields body blog).likes = blog.likes
    ∧ (setFields body blog).likedUsers = blog.likedUsers
    ∧ (setFields body blog).reviews = blog.reviews := by
  have hupd := updateOne_found blogs id (setFields body) blog hfind
  refine ⟨by simp [putBlog, hid, hfind, hown, hupd.2.2], ?_,
    by simp [setFields, h1], by simp [setFields, h2],
    by simp [setFields, h3], by simp [setFields, h4],
    by simp [setFields, h5]⟩
  by_cases hmod : (updateOne blogs id (setFields body)).2.2 = false
  · simp [patchBlog, hid, hmod, hupd.2.2]
  · simp [patchBlog, hid, hmod, hupd.2.2]

/-- A body that carries only a new title. -/
def bodyTitle : BlogDoc := { emptyDoc with title := some "new" }

/-- C7 witness: a concrete owner PUT carrying only a title leaves the
stored post's protected fields exactly as merged by `setFields`. -/
theorem shallow_merge_amended_witness :
    findOne (putBlog oid1 ownerE1 bodyTitle [(oid1, postByE1)]).2 oid1
      = some (setFields bodyTitle postByE1) :=
  (shallow_merge_amended [(oid1, postByE1)] oid1 ownerE1 bodyTitle postByE1
    (by decide) (by decide) (by decide) rfl rfl rfl rfl rfl).1

/-- An identity whose stored user record has role "admin". -/
def adminUser : Identity := { uid := "a1", email := some "adm@x", name := none }

/-- The stored user record behind `adminUser`. -/
def adminUserDoc : UserDoc := { email := some "adm@x", role := some "admin" }

/-- A subscriber on file. -/
def sub1 : Subscriber := { email := "s@x", createdAt := 0 }

/-- C8 counterexample: a `DELETE /contacts/<id>` request never reaches the
line-1101 contacts handler — it is dispatched to the earlier-registered
`DELETE /:blogId/:commentId` route (line 962) with `blogId = "contacts"`,
where `new ObjectId("contacts")` throws into the catch-all 500. So even an
admin caller does not receive the deletion (500, not 200), and a
non-admin does not receive 403 either; nothing is deleted from any
store. -/
theorem admin_gate_cex :
    matchDeleteRoute "contacts" oid1 = .reviewsRoute "contacts" oid1
    ∧ removeReview "contacts" oid1 [(oid1, emptyDoc)]
      = (.serverError, [(oid1, emptyDoc)])
    ∧ RemoveReviewResp.serverError.status = 500
    ∧ (500 : Nat) ≠ 200 ∧ (500 : Nat) ≠ 403 := by decide

/-- C8 amended: `GET /subscribers` and `GET /contacts` are admin-gated — a
caller whose stored user record's role is not "admin" gets 403, while an
admin gets the full list (200). `DELETE /contacts/:id` and
`DELETE /subscribers/:id` however are unreachable: registration order
sends every such two-segment DELETE to the `/:blogId/:commentId`
review-removal route, whose handler throws on
`new ObjectId("contacts"/"subscribers")` and answers 500 for every caller,
admin or not, touching neither the contacts nor the subscribers store
(that handler only reads the blogs collection, which it also leaves
unchanged). -/
theorem admin_gate_amended (user : Identity) (users : List UserDoc)
    (u : UserDoc) (subs : Coll Subscriber) (contacts : Coll Contact)
    (e : String)
    (hu : users.find? (fun x => x.email == user.email) = some u)
    (he : user.email = some e) (hne : e ≠ "") :
    (u.role ≠ some "admin" →
      getSubscribers user users subs = .forbidden
      ∧ getContacts user users contacts = .forbidden
      ∧ SubscribersResp.forbidden.status = 403)
    ∧ (u.role = some "admin" →
      getSubscribers user users subs = .ok subs
      ∧ getContacts user users contacts = .ok contacts
      ∧ (SubscribersResp.ok subs).status = 200)
    ∧ (∀ id blogs,
        matchDeleteRoute "contacts" id = .reviewsRoute "contacts" id
        ∧ removeReview "contacts" id blogs = (.serverError, blogs))
    ∧ (∀ id blogs,
        matchDeleteRoute "subscribers" id = .reviewsRoute "subscribers" id
        ∧ removeReview "subscribers" id blogs = (.serverError, blogs)) := by
  have hu2 : users.find? (fun x => x.email == some e) = some u := by
    rw [← he]; exact hu
  refine ⟨?_, ?_, ?_, ?_⟩
  · intro hrole
    have hb : (u.role != some "admin") = true := bne_iff_ne.mpr hrole
    exact ⟨by simp [getSubscribers, hu, hb],
      by simp [getContacts, he, hne, hu2, hb], rfl⟩
  · intro hrole
    have hb : (u.role != some "admin") = false := by
      simp [bne_eq_false_iff_eq, hrole]
    exact ⟨by simp [getSubscribers, hu, hb],
      by simp [getContacts, he, hne, hu2, hb], rfl⟩
  · intro id blogs
    have hv : isValidObjectId "contacts" = false := by decide
    exact ⟨by simp [matchDeleteRoute], by simp [removeReview, hv]⟩
  · intro id blogs
    have hv : isValidObjectId "subscribers" = false := by decide
    exact ⟨by simp [matchDeleteRoute], by simp [removeReview, hv]⟩

/-- C8 witness: the concrete admin caller reads the full subscriber
list. -/
theorem admin_gate_witness :
    getSubscribers adminUser [adminUserDoc] [(oid1, sub1)]
      = .ok [(oid1, sub1)] :=
  ((admin_gate_amended adminUser [adminUserDoc] adminUserDoc
    [(oid1, sub1)] [] "adm@x" (by decide) rfl (by decide)).2.1 rfl).1

end BlogServer
